import Mathlib

/-!
Verification development for the `nkz-module-eu-elevation` ingestion pipeline.

The development shallowly embeds the Python sources:
* `src/backend/app/tasks/elevation_tasks.py` — the Celery worker
  `process_dem_to_quantized_mesh` together with its helpers `_run_gdal` and
  `_create_layer_json`;
* `src/backend/app/api/elevation.py` — the `start_ingestion` endpoint and the
  `websocket_job_status` polling loop.

External collaborators (GDAL subprocesses, rasterio, pydelatin, the
quantized-mesh encoder, the filesystem, the Celery broker/backend) are
represented as oracle outcomes supplied through an `Env` record: each external
call either succeeds with a value chosen by the environment or raises with an
exception text chosen by the environment.  The worker body itself is translated
statement by statement; the list of ledger updates and storage writes it
performs is collected as an explicit event trace.
-/

namespace ElevationPipeline

/-- `ZOOM_LEVELS = [12, 13, 14]` from `elevation_tasks.py` line 27. -/
def ZOOM_LEVELS : List Nat := [12, 13, 14]

/-- `TERRAIN_OUTPUT_DIR` default from `elevation_tasks.py` line 22. -/
def TERRAIN_OUTPUT_DIR : String := "/tmp/terrain_output"

/-- A geographic bounding box `(minX, minY, maxX, maxY)`, EPSG:4326. -/
structure BBox where
  minX : Rat
  minY : Rat
  maxX : Rat
  maxY : Rat
deriving Repr, DecidableEq

/-- One per-zoom availability range of `layer.json` (`startX/startY/endX/endY`). -/
structure AvailRange where
  startX : Nat
  startY : Nat
  endX : Nat
  endY : Nat
deriving Repr, DecidableEq

/-- The `layer.json` dictionary built by `_create_layer_json`. -/
structure LayerManifest where
  tilejson : String
  name : String
  description : String
  version : String
  format : String
  tiles : List String
  projection : String
  bounds : List Rat
  available : List (List AvailRange)
deriving Repr, DecidableEq

/-- Observable actions of one worker attempt, in program order:
Celery `update_state` calls, file writes, and file removals. -/
inductive Event where
  | update (state : String) (progress : Nat) (message : String)
  | writeJson (path : String) (manifest : LayerManifest)
  | write (path : String) (data : List Nat)
  | remove (path : String)
deriving Repr, DecidableEq

/-- Outcome of one `subprocess.run` of a GDAL command. -/
structure GdalProc where
  returncode : Int
  stderr : String
deriving Repr, DecidableEq

deriving instance DecidableEq for Except

/-- Oracle outcomes for every external call one attempt can make.
`buildVrt`/`warp` are the two `subprocess.run` results; the remaining
fields are the rasterio / pydelatin / encoder / file-system calls, each an
`Except` whose error is the raised exception's text. -/
structure Env where
  buildVrt : GdalProc
  warp : GdalProc
  hasEncoders : Bool
  openResult : Except String Unit
  readResult : Except String (List Nat)
  delatinResult : Except String (List Nat × List Nat)
  encodeResult : Except String (List Nat)
  persistResult : Except String Unit
deriving Repr, DecidableEq

/-- The dictionary value a worker attempt returns on normal completion
(`{"status": ..., "country": ..., "output_path": ...}`). -/
structure TaskResult where
  status : String
  country : String
  output_path : Option String
deriving Repr, DecidableEq

/-- `_run_gdal` (`elevation_tasks.py` lines 29–35): raises
`RuntimeError(f"GDAL command failed: {cmd}")` when the return code is
nonzero. -/
def run_gdal (cmd : List String) (proc : GdalProc) : Except String Unit :=
  if proc.returncode ≠ 0 then
    Except.error ("GDAL command failed: " ++ String.intercalate " " cmd)
  else
    Except.ok ()

/-- `_create_layer_json` (`elevation_tasks.py` lines 37–53): the manifest
dictionary, with the placeholder `available` entry. -/
def create_layer_json (bounds : BBox) : LayerManifest :=
  { tilejson := "2.1.0"
    name := "Nekazari EU Elevation"
    description := "Custom BBOX ingested high-res elevation"
    version := "1.0.0"
    format := "quantized-mesh-1.2"
    tiles := ["{z}/{x}/{y}.terrain?v={version}"]
    projection := "EPSG:4326"
    bounds := [bounds.minX, bounds.minY, bounds.maxX, bounds.maxY]
    available := [[{ startX := 0, startY := 0, endX := 0, endY := 0 }]] }

/-- `task_dir = os.path.join(TERRAIN_OUTPUT_DIR, country_code)`. -/
def task_dir (country_code : String) : String :=
  TERRAIN_OUTPUT_DIR ++ "/" ++ country_code

/-- The `gdalbuildvrt` command of step 1 (lines 79–83). -/
def vrt_cmd (country_code : String) (source_urls : List String) (bbox : BBox) :
    List String :=
  ["gdalbuildvrt", "-te",
   toString bbox.minX, toString bbox.minY, toString bbox.maxX, toString bbox.maxY,
   task_dir country_code ++ "/mosaic_raw.vrt"] ++ source_urls

/-- The `gdalwarp` command of step 2 (lines 89–97). -/
def warp_cmd (country_code : String) : List String :=
  ["gdalwarp", "-t_srs", "EPSG:4326", "-of", "VRT",
   "--config", "GDAL_CACHEMAX", "2048", "-multi",
   task_dir country_code ++ "/mosaic_raw.vrt",
   task_dir country_code ++ "/mosaic_4326.vrt"]

/-- Path of the single hardcoded tile's uncompressed artifact
(z = 12, x = 2048, y = 2048; lines 111–117). -/
def terrain_file (country_code : String) : String :=
  task_dir country_code ++ "/12/2048/2048.terrain"

/-- Path of the single hardcoded tile's gzip artifact (line 118). -/
def gz_file (country_code : String) : String :=
  terrain_file country_code ++ ".gz"

/-- Modelled from the spec: the gzip compression used at lines 142–144
(`gzip.open(gz_file, "wb")` from Python's standard library, external to
`src/`).  The spec requires only that the persisted artifact is a lossless
compression of the encoder's bytes ("gzip of the fixed binary tile format";
"decompressing a persisted tile artifact reproduces the encoder's original
output bytes bit-for-bit"), so the coder is modelled as an executable
run-length scheme over byte values: a list of `(count, byte)` pairs. -/
def rleEncode : List Nat → List (Nat × Nat)
  | [] => []
  | b :: rest =>
    match rleEncode rest with
    | [] => [(1, b)]
    | (k, c) :: t => if c = b then (k + 1, c) :: t else (1, b) :: (k, c) :: t

/-- Modelled from the spec: inverse direction of the gzip model —
expand each `(count, byte)` pair. -/
def rleDecode : List (Nat × Nat) → List Nat
  | [] => []
  | (k, b) :: t => List.replicate k b ++ rleDecode t

/-- Serialise the `(count, byte)` pairs into a flat byte stream. -/
def pairsFlatten : List (Nat × Nat) → List Nat
  | [] => []
  | (k, b) :: t => k :: b :: pairsFlatten t

/-- Parse a flat byte stream back into `(count, byte)` pairs. -/
def pairsUnflatten : List Nat → List (Nat × Nat)
  | k :: b :: t => (k, b) :: pairsUnflatten t
  | _ => []

/-- The bytes persisted at `{y}.terrain.gz`: compressed encoder output. -/
def gzipBytes (data : List Nat) : List Nat :=
  pairsFlatten (rleEncode data)

/-- Decompression of a persisted `.terrain.gz` artifact. -/
def gunzipBytes (data : List Nat) : List Nat :=
  rleDecode (pairsUnflatten data)

/-- The `except Exception` handler (lines 153–156): one `FAILED` ledger
update with progress 0 and the exception's text, before re-raising into the
retry mechanism. -/
def failEvents (err : String) : List Event :=
  [Event.update "FAILED" 0 ("Error crítico: " ++ err)]

/-- Shallow embedding of `process_dem_to_quantized_mesh`
(`elevation_tasks.py` lines 55–156).  Returns the attempt's event trace in
program order, and either `Except.ok` with the returned dictionary (Celery
then marks the task `SUCCESS`) or `Except.error e` meaning the attempt
raised `e` and handed it to `self.retry`. -/
def process_dem_to_quantized_mesh (env : Env) (country_code : String)
    (source_urls : List String) (bbox : BBox) :
    List Event × Except String TaskResult :=
  let e0 := [Event.update "PROCESSING" 5
    "Iniciando pipeline ETL y preparando estructura de directorios..."]
  let e1 := e0 ++ [Event.update "PROCESSING" 15
    "Generando Virtual Raster (VRT) acotado al BBOX..."]
  match run_gdal (vrt_cmd country_code source_urls bbox) env.buildVrt with
  | Except.error err => (e1 ++ failEvents err, Except.error err)
  | Except.ok _ =>
  let e2 := e1 ++ [Event.update "PROCESSING" 30
    "Reproyectando modelo digital a EPSG:4326 en memoria..."]
  match run_gdal (warp_cmd country_code) env.warp with
  | Except.error err => (e2 ++ failEvents err, Except.error err)
  | Except.ok _ =>
  if env.hasEncoders = false then
    (e2, Except.ok { status := "skipped_encoding", country := country_code,
                     output_path := none })
  else
  let e3 := e2 ++ [Event.update "PROCESSING" 50
    "Preparando iterador Rasterio para extracción de cuadrantes..."]
  match env.openResult with
  | Except.error err => (e3 ++ failEvents err, Except.error err)
  | Except.ok _ =>
  let e4 := e3 ++ [Event.writeJson (task_dir country_code ++ "/layer.json")
    (create_layer_json bbox)]
  let e5 := e4 ++ [Event.update "PROCESSING" 65
    "Extrayendo elevaciones ZXY (12/2048/2048)..."]
  match env.readResult with
  | Except.error err => (e5 ++ failEvents err, Except.error err)
  | Except.ok _elevation_data =>
  let e6 := e5 ++ [Event.update "PROCESSING" 75
    "Decimando geometría pesada (TinMesh) para web..."]
  match env.delatinResult with
  | Except.error err => (e6 ++ failEvents err, Except.error err)
  | Except.ok _vertices_triangles =>
  let e7 := e6 ++ [Event.update "PROCESSING" 85
    "Codificando binario a estándar Quantized-Mesh-1.2..."]
  match env.encodeResult with
  | Except.error err => (e7 ++ failEvents err, Except.error err)
  | Except.ok qm_bytes =>
  let e8 := e7 ++ [Event.update "PROCESSING" 95
    "Comprimiendo capas estáticas en gzip..."]
  match env.persistResult with
  | Except.error err => (e8 ++ failEvents err, Except.error err)
  | Except.ok _ =>
  let e9 := e8 ++ [Event.write (terrain_file country_code) qm_bytes,
                   Event.write (gz_file country_code) (gzipBytes qm_bytes),
                   Event.remove (terrain_file country_code)]
  let e10 := e9 ++ [Event.update "SUCCESS" 100
    "Proceso completado con éxito. Capas Terrain publicadas."]
  (e10, Except.ok { status := "success", country := country_code,
                    output_path := some (task_dir country_code) })

/-- `max_retries=3` from the `self.retry` call, `elevation_tasks.py` line 156. -/
def max_retries : Nat := 3

/-- `countdown=60` from the `self.retry` call, `elevation_tasks.py` line 156. -/
def retry_countdown : Nat := 60

/-- Outcome of driving one job to completion through the scheduler:
how many worker attempts ran, the inter-attempt delays, and the final
result (`Except.error` = the job is permanently `FAILURE`, carrying the
last raised error; `Except.ok` = the job is `SUCCESS`). -/
structure JobOutcome where
  attempts : Nat
  delays : List Nat
  final : Except String TaskResult
deriving Repr, DecidableEq

/-- Modelled from the spec: the task scheduler (Celery, external to `src/`)
that dispatches the worker and applies the bounded retry-with-backoff of
spec §4.4, parameterised by the worker's own `self.retry(exc=e,
countdown=60, max_retries=3)` call.  `env i` supplies the oracle outcomes
of attempt `i`; a raising attempt consumes one retry after the fixed
delay, and once retries are exhausted the job fails permanently with the
last error. -/
def scheduleAux (env : Nat → Env) (country_code : String)
    (source_urls : List String) (bbox : BBox) :
    Nat → Nat → JobOutcome
  | attempt, retriesLeft =>
    match (process_dem_to_quantized_mesh (env attempt) country_code source_urls bbox).2 with
    | Except.ok r => { attempts := attempt + 1, delays := [], final := Except.ok r }
    | Except.error e =>
      match retriesLeft with
      | 0 => { attempts := attempt + 1, delays := [], final := Except.error e }
      | Nat.succ rl =>
        let rest := scheduleAux env country_code source_urls bbox (attempt + 1) rl
        { attempts := rest.attempts,
          delays := retry_countdown :: rest.delays,
          final := rest.final }

/-- Drive a job from its first attempt with the full retry budget. -/
def scheduleJob (env : Nat → Env) (country_code : String)
    (source_urls : List String) (bbox : BBox) : JobOutcome :=
  scheduleAux env country_code source_urls bbox 0 max_retries

/-- The job's final Celery state: a task whose function returned is
`SUCCESS`; a task whose retries are exhausted is `FAILURE`. -/
def jobStatus (o : JobOutcome) : String :=
  match o.final with
  | Except.ok _ => "SUCCESS"
  | Except.error _ => "FAILURE"

/-- `task_result.info` as inspected by the websocket loop
(`elevation.py` lines 226–233): a meta dict, an exception, or anything
else. -/
inductive TaskInfo where
  | dict (progress : Nat) (message : String)
  | exc (text : String)
  | other
deriving Repr, DecidableEq

/-- The JSON payload pushed over the websocket (`elevation.py` lines
219–233). -/
structure WsPayload where
  job_id : String
  status : String
  progress : Nat
  message : String
  result : Option TaskInfo
  error : Bool
deriving Repr, DecidableEq

/-- Payload construction of `elevation.py` lines 219–233. -/
def buildPayload (job_id : String) (state : String) (info : TaskInfo) : WsPayload :=
  match info with
  | TaskInfo.dict p m =>
    { job_id := job_id, status := state, progress := p, message := m,
      result := if state = "SUCCESS" then some (TaskInfo.dict p m) else none,
      error := false }
  | TaskInfo.exc t =>
    { job_id := job_id, status := state, progress := 0, message := t,
      result := none, error := true }
  | TaskInfo.other =>
    { job_id := job_id, status := state, progress := 0, message := "",
      result := none, error := false }

/-- The break condition of `elevation.py` line 239. -/
def terminalStates : List String := ["SUCCESS", "FAILURE", "REVOKED"]

/-- Whether a Celery state string is terminal for the websocket loop. -/
def isTerminalState (s : String) : Bool :=
  terminalStates.contains s

/-- Shallow embedding of `websocket_job_status` (`elevation.py` lines
203–252).  `stateAt t` / `infoAt t` are the Celery backend's state and
info as read at poll tick `t` (the loop sleeps 1 second between reads);
`fuel` bounds how many polls the model unrolls.  Each iteration emits the
current payload, then stops the instant the observed state is terminal. -/
def websocket_job_status (job_id : String) (stateAt : Nat → String)
    (infoAt : Nat → TaskInfo) : Nat → Nat → List WsPayload
  | 0, _ => []
  | Nat.succ fuel, t =>
    let payload := buildPayload job_id (stateAt t) (infoAt t)
    if isTerminalState (stateAt t) then
      [payload]
    else
      payload :: websocket_job_status job_id stateAt infoAt fuel (t + 1)

/-- `BboxIngestRequest` (`elevation.py` lines 49–56). -/
structure BboxIngestRequest where
  country_code : String
  bbox : BBox
  source_urls : List String
deriving Repr, DecidableEq

/-- `ProcessResponse` (`elevation.py` lines 59–63). -/
structure ProcessResponse where
  job_id : String
  status : String
  message : String
deriving Repr, DecidableEq

/-- An `HTTPException` raised by an endpoint. -/
structure HttpError where
  status_code : Nat
  detail : String
deriving Repr, DecidableEq

/-- Outcome of `process_dem_to_quantized_mesh.delay(...)`: the broker
either accepts the task and returns its id, or raises. -/
inductive EnqueueOutcome where
  | enqueued (taskId : String)
  | raised (err : String)
deriving Repr, DecidableEq

/-- Shallow embedding of `start_ingestion` (`elevation.py` lines 78–116).
The first component is the list of pipeline events the endpoint itself
performs synchronously — always `[]`, since `.delay` only enqueues; the
body merely inspects the enqueue outcome. -/
def start_ingestion (request : BboxIngestRequest) (enq : EnqueueOutcome) :
    List Event × Except HttpError ProcessResponse :=
  match enq with
  | EnqueueOutcome.enqueued taskId =>
    ([], Except.ok
      { job_id := taskId, status := "queued",
        message := "Ingestion job queued. Connect to WS /api/elevation/ws/status/{job_id} for live updates." })
  | EnqueueOutcome.raised _ =>
    ([], Except.error
      { status_code := 503,
        detail := "Processing queue unavailable. Please try again later." })

/-- A tile address `(zoom, x, y)`. -/
structure TileAddress where
  z : Nat
  x : Int
  y : Int
deriving Repr, DecidableEq

/-- The tile addresses the worker actually writes: `elevation_tasks.py`
lines 110–113 hardcode the single tile `z = 12, x = 2048, y = 2048`
(source comment: "Simple mocking of a looping mechanism for Z/X/Y"),
independently of the bounding box and of `ZOOM_LEVELS`. -/
def codeTiles (_bbox : BBox) (_zoomLevels : List Nat) : List TileAddress :=
  [{ z := 12, x := 2048, y := 2048 }]

/-- Modelled from the spec: the geodetic tile column of a longitude.  The
tiling scheme of spec §4.1 halves the tile extent per zoom increment
(extent `180 / 2 ^ z` degrees at zoom `z`), so the column of `lon` is
`⌊(lon + 180) · 2 ^ z / 180⌋`, computed exactly on the rational's
numerator and denominator with Euclidean division. -/
def lonToTileX (lon : Rat) (z : Nat) : Int :=
  Int.ediv ((lon.num + 180 * lon.den) * 2 ^ z) (180 * lon.den)

/-- Modelled from the spec: the geodetic tile row of a latitude,
`⌊(lat + 90) · 2 ^ z / 180⌋`. -/
def latToTileY (lat : Rat) (z : Nat) : Int :=
  Int.ediv ((lat.num + 90 * lat.den) * 2 ^ z) (180 * lat.den)

/-- Modelled from the spec: the covering tile range of a BBOX at one zoom
level — rows and columns computed from the BBOX corners. -/
def tilesForZoom (bbox : BBox) (z : Nat) : List TileAddress :=
  let x0 := lonToTileX bbox.minX z
  let x1 := lonToTileX bbox.maxX z
  let y0 := latToTileY bbox.minY z
  let y1 := latToTileY bbox.maxY z
  (List.range ((x1 - x0).toNat + 1)).flatMap fun i =>
    (List.range ((y1 - y0).toNat + 1)).map fun j =>
      { z := z, x := x0 + i, y := y0 + j }

/-- Modelled from the spec: `tilesFor(bbox, zoomLevels)` of spec §4.1 —
the covering tile set over all configured zoom levels. -/
def tilesFor (bbox : BBox) (zoomLevels : List Nat) : List TileAddress :=
  zoomLevels.flatMap (tilesForZoom bbox)

/-- The progress values carried by the ledger updates of a trace. -/
def progressList (t : List Event) : List Nat :=
  t.filterMap fun ev =>
    match ev with
    | Event.update _ p _ => some p
    | _ => none

/-- The (state, progress) pairs carried by the ledger updates of a trace. -/
def updateList (t : List Event) : List (String × Nat) :=
  t.filterMap fun ev =>
    match ev with
    | Event.update s p _ => some (s, p)
    | _ => none

/-- Whether an event is the `layer.json` manifest write. -/
def isManifestWrite : Event → Bool
  | Event.writeJson _ _ => true
  | _ => false

/-- Whether an event persists a tile artifact (a raw byte write). -/
def isTileWrite : Event → Bool
  | Event.write _ _ => true
  | _ => false

/-- The event trace of a fully successful encoder-enabled attempt, with
`qm_bytes` the encoder's output. -/
def successTrace (country_code : String) (bbox : BBox) (qm_bytes : List Nat) :
    List Event :=
  [Event.update "PROCESSING" 5
     "Iniciando pipeline ETL y preparando estructura de directorios...",
   Event.update "PROCESSING" 15
     "Generando Virtual Raster (VRT) acotado al BBOX...",
   Event.update "PROCESSING" 30
     "Reproyectando modelo digital a EPSG:4326 en memoria...",
   Event.update "PROCESSING" 50
     "Preparando iterador Rasterio para extracción de cuadrantes...",
   Event.writeJson (task_dir country_code ++ "/layer.json") (create_layer_json bbox),
   Event.update "PROCESSING" 65
     "Extrayendo elevaciones ZXY (12/2048/2048)...",
   Event.update "PROCESSING" 75
     "Decimando geometría pesada (TinMesh) para web...",
   Event.update "PROCESSING" 85
     "Codificando binario a estándar Quantized-Mesh-1.2...",
   Event.update "PROCESSING" 95
     "Comprimiendo capas estáticas en gzip...",
   Event.write (terrain_file country_code) qm_bytes,
   Event.write (gz_file country_code) (gzipBytes qm_bytes),
   Event.remove (terrain_file country_code),
   Event.update "SUCCESS" 100
     "Proceso completado con éxito. Capas Terrain publicadas."]

/-- The event trace of an attempt that skips encoding (`HAS_ENCODERS`
false): the two GDAL stages' updates only, then the early return. -/
def skipTrace : List Event :=
  [Event.update "PROCESSING" 5
     "Iniciando pipeline ETL y preparando estructura de directorios...",
   Event.update "PROCESSING" 15
     "Generando Virtual Raster (VRT) acotado al BBOX...",
   Event.update "PROCESSING" 30
     "Reproyectando modelo digital a EPSG:4326 en memoria..."]

/-- The possible progress-value sequences of one attempt, one entry per
stopping point of the pipeline. -/
def possibleProgressLists : List (List Nat) :=
  [[5, 15, 0], [5, 15, 30, 0], [5, 15, 30], [5, 15, 30, 50, 0],
   [5, 15, 30, 50, 65, 0], [5, 15, 30, 50, 65, 75, 0],
   [5, 15, 30, 50, 65, 75, 85, 0], [5, 15, 30, 50, 65, 75, 85, 95, 0],
   [5, 15, 30, 50, 65, 75, 85, 95, 100]]

/-- Boolean check that a list of progress values never decreases. -/
def nonDecreasing : List Nat → Bool
  | a :: b :: t => decide (a ≤ b) && nonDecreasing (b :: t)
  | _ => true

/-- A GDAL run that succeeded. -/
def okGdal : GdalProc := { returncode := 0, stderr := "" }

/-- A GDAL run that exited with code 1. -/
def badGdal : GdalProc := { returncode := 1, stderr := "gdal stderr" }

/-- An environment in which every external call succeeds. -/
def goodEnv : Env :=
  { buildVrt := okGdal, warp := okGdal, hasEncoders := true,
    openResult := Except.ok (), readResult := Except.ok [1, 2, 3],
    delatinResult := Except.ok ([4, 5], [6]),
    encodeResult := Except.ok [9, 9, 3, 3, 3, 7],
    persistResult := Except.ok () }

/-- An environment whose `gdalbuildvrt` fails (e.g. no usable source). -/
def vrtFailEnvW : Env := { goodEnv with buildVrt := badGdal }

/-- An environment whose `gdalwarp` fails. -/
def warpFailEnvW : Env := { goodEnv with warp := badGdal }

/-- An environment without the C++ encoder toolchain. -/
def skipEnvW : Env := { goodEnv with hasEncoders := false }

/-- An environment whose rasterio window read raises. -/
def readFailEnvW : Env := { goodEnv with readResult := Except.error "read boom" }

/-- An environment whose pydelatin decimation raises. -/
def delatinFailEnvW : Env :=
  { goodEnv with delatinResult := Except.error "delatin boom" }

/-- The spec §8 scenario bounding box `[-1.0, 42.0, 0.0, 43.0]`. -/
def wBBox : BBox := { minX := -1, minY := 42, maxX := 0, maxY := 43 }

/-- A second, disjoint bounding box. -/
def altBBox : BBox := { minX := 10, minY := 50, maxX := 11, maxY := 51 }

/-- A backend state sequence observed by a websocket client: one
in-progress poll, then the job is permanently failed. -/
def c5States : Nat → String :=
  fun t => if t = 0 then "PROCESSING" else "FAILURE"

/-- The matching backend info sequence. -/
def c5Infos : Nat → TaskInfo :=
  fun t => if t = 0 then TaskInfo.dict 15 "working" else TaskInfo.exc "boom"

/-- Decoding inverts run-length encoding. -/
theorem rleDecode_rleEncode (l : List Nat) : rleDecode (rleEncode l) = l := by
  induction l with
  | nil => rfl
  | cons b rest ih =>
    cases h : rleEncode rest with
    | nil =>
      rw [h] at ih
      simp only [rleDecode] at ih
      simp [rleEncode, h, rleDecode, ih.symm]
    | cons kc t =>
      obtain ⟨k, c⟩ := kc
      rw [h] at ih
      by_cases hcb : c = b
      · subst hcb
        simp only [rleEncode, h, if_pos rfl]
        simp only [rleDecode, List.replicate_succ, List.cons_append] at ih ⊢
        rw [ih]
      · simp only [rleEncode, h, if_neg hcb]
        simp only [rleDecode, List.replicate_succ, List.replicate_zero,
          List.nil_append, List.cons_append] at ih ⊢
        rw [ih]

/-- Parsing inverts serialisation of the `(count, byte)` pairs. -/
theorem pairsUnflatten_pairsFlatten (p : List (Nat × Nat)) :
    pairsUnflatten (pairsFlatten p) = p := by
  induction p with
  | nil => rfl
  | cons kb t ih =>
    obtain ⟨k, b⟩ := kb
    simp [pairsFlatten, pairsUnflatten, ih]

/-- The modelled gzip round-trips: decompression inverts compression. -/
theorem gunzipBytes_gzipBytes (data : List Nat) :
    gunzipBytes (gzipBytes data) = data := by
  simp [gunzipBytes, gzipBytes, pairsUnflatten_pairsFlatten, rleDecode_rleEncode]

/-- A fully successful encoder-enabled attempt produces exactly
`successTrace` and returns the success dictionary. -/
theorem process_success_eq (env : Env) (cc : String) (urls : List String)
    (bbox : BBox) (d : List Nat) (vt : List Nat × List Nat) (qb : List Nat)
    (h1 : env.buildVrt.returncode = 0) (h2 : env.warp.returncode = 0)
    (h3 : env.hasEncoders = true) (h4 : env.openResult = Except.ok ())
    (h5 : env.readResult = Except.ok d) (h6 : env.delatinResult = Except.ok vt)
    (h7 : env.encodeResult = Except.ok qb) (h8 : env.persistResult = Except.ok ()) :
    process_dem_to_quantized_mesh env cc urls bbox =
      (successTrace cc bbox qb,
       Except.ok { status := "success", country := cc,
                   output_path := some (task_dir cc) }) := by
  simp [process_dem_to_quantized_mesh, run_gdal, h1, h2, h3, h4, h5, h6, h7, h8,
        successTrace]

/-- An attempt without the encoder toolchain that passes both GDAL stages
produces exactly `skipTrace` and returns the skipped-encoding dictionary. -/
theorem process_skip_eq (env : Env) (cc : String) (urls : List String)
    (bbox : BBox) (h1 : env.hasEncoders = false)
    (h2 : env.buildVrt.returncode = 0) (h3 : env.warp.returncode = 0) :
    process_dem_to_quantized_mesh env cc urls bbox =
      (skipTrace,
       Except.ok { status := "skipped_encoding", country := cc,
                   output_path := none }) := by
  simp [process_dem_to_quantized_mesh, run_gdal, h1, h2, h3, skipTrace]

/-- An attempt whose `gdalbuildvrt` exits nonzero raises the captured
GDAL error. -/
theorem process_buildVrt_fail (env : Env) (cc : String) (urls : List String)
    (bbox : BBox) (h : env.buildVrt.returncode ≠ 0) :
    (process_dem_to_quantized_mesh env cc urls bbox).2 =
      Except.error
        ("GDAL command failed: " ++ String.intercalate " " (vrt_cmd cc urls bbox)) := by
  simp [process_dem_to_quantized_mesh, run_gdal, h]

/-- The progress values of any attempt form one of the nine per-stage
stopping sequences. -/
theorem progress_cases (env : Env) (cc : String) (urls : List String)
    (bbox : BBox) :
    progressList (process_dem_to_quantized_mesh env cc urls bbox).1 ∈
      possibleProgressLists := by
  obtain ⟨bv, wp, henc, ho, hr, hd, he, hp⟩ := env
  by_cases h1 : bv.returncode = 0
  · by_cases h2 : wp.returncode = 0
    · cases henc
      · simp [process_dem_to_quantized_mesh, run_gdal, h1, h2, progressList,
          possibleProgressLists, failEvents]
      · rcases ho with oe | ou
        · simp [process_dem_to_quantized_mesh, run_gdal, h1, h2, progressList,
            possibleProgressLists, failEvents]
        · rcases hr with re | rd
          · simp [process_dem_to_quantized_mesh, run_gdal, h1, h2, progressList,
              possibleProgressLists, failEvents]
          · rcases hd with de | dv
            · simp [process_dem_to_quantized_mesh, run_gdal, h1, h2, progressList,
                possibleProgressLists, failEvents]
            · rcases he with ee | eb
              · simp [process_dem_to_quantized_mesh, run_gdal, h1, h2,
                  progressList, possibleProgressLists, failEvents]
              · rcases hp with pe | pu
                · simp [process_dem_to_quantized_mesh, run_gdal, h1, h2,
                    progressList, possibleProgressLists, failEvents]
                · simp [process_dem_to_quantized_mesh, run_gdal, h1, h2,
                    progressList, possibleProgressLists, failEvents]
    · simp [process_dem_to_quantized_mesh, run_gdal, h1, h2, progressList,
        possibleProgressLists, failEvents]
  · simp [process_dem_to_quantized_mesh, run_gdal, h1, progressList,
      possibleProgressLists, failEvents]

/-- When every attempt raises, the scheduler runs `retriesLeft + 1`
attempts from any starting attempt, with the fixed delay before each
retry, and ends with the last attempt's error. -/
theorem scheduleAux_all_fail (env : Nat → Env) (cc : String)
    (urls : List String) (bbox : BBox) (errOf : Nat → String)
    (h : ∀ i, (process_dem_to_quantized_mesh (env i) cc urls bbox).2 =
      Except.error (errOf i)) :
    ∀ rl a, scheduleAux env cc urls bbox a rl =
      { attempts := a + rl + 1,
        delays := List.replicate rl retry_countdown,
        final := Except.error (errOf (a + rl)) } := by
  intro rl
  induction rl with
  | zero => intro a; simp [scheduleAux, h a]
  | succ n ih =>
    intro a
    simp [scheduleAux, h a, ih (a + 1), List.replicate_succ]
    constructor
    · omega
    · have : a + 1 + n = a + (n + 1) := by omega
      rw [this]

/-- The payload's status field is the observed state, whatever the info. -/
theorem buildPayload_status (job_id state : String) (info : TaskInfo) :
    (buildPayload job_id state info).status = state := by
  cases info <;> rfl

/-- C1 (counterexample): the progress sequence is NOT monotonically
non-decreasing over a job's lifetime — an attempt that fails at the
reprojection stage writes 5, 15, 30 and then the failure update's 0 —
and the encoder-skip path reaches `SUCCESS` with its last explicit
update carrying 30, not 100. -/
theorem C1_progress_not_monotone_cex :
    progressList (process_dem_to_quantized_mesh warpFailEnvW "es" ["s1"] wBBox).1 =
      [5, 15, 30, 0] ∧
    nonDecreasing
      (progressList (process_dem_to_quantized_mesh warpFailEnvW "es" ["s1"] wBBox).1) =
      false ∧
    (process_dem_to_quantized_mesh skipEnvW "es" ["s1"] wBBox).2 =
      Except.ok { status := "skipped_encoding", country := "es",
                  output_path := none } ∧
    progressList (process_dem_to_quantized_mesh skipEnvW "es" ["s1"] wBBox).1 =
      [5, 15, 30] := by
  decide

/-- C1 (amended): every ledger update of any attempt carries a progress
value in [0, 100], and over a fully successful encoder-enabled attempt the
progress values are exactly 5, 15, 30, 50, 65, 75, 85, 95, 100 —
monotonically non-decreasing, with the terminal `SUCCESS` update carrying
100.  (A failure update resets progress to 0, and the encoder-skip success
path stops at 30, which is what the original claim's lifetime-wide
monotonicity and final-100 guarantees reduce to.) -/
theorem C1_progress_amended :
    (∀ (env : Env) (cc : String) (urls : List String) (bbox : BBox) (p : Nat),
        p ∈ progressList (process_dem_to_quantized_mesh env cc urls bbox).1 →
        p ≤ 100) ∧
    (∀ (env : Env) (cc : String) (urls : List String) (bbox : BBox)
        (d : List Nat) (vt : List Nat × List Nat) (qb : List Nat),
        env.buildVrt.returncode = 0 → env.warp.returncode = 0 →
        env.hasEncoders = true → env.openResult = Except.ok () →
        env.readResult = Except.ok d → env.delatinResult = Except.ok vt →
        env.encodeResult = Except.ok qb → env.persistResult = Except.ok () →
        progressList (process_dem_to_quantized_mesh env cc urls bbox).1 =
          [5, 15, 30, 50, 65, 75, 85, 95, 100] ∧
        nonDecreasing
          (progressList (process_dem_to_quantized_mesh env cc urls bbox).1) =
          true ∧
        (updateList (process_dem_to_quantized_mesh env cc urls bbox).1).getLast? =
          some ("SUCCESS", 100)) := by
  constructor
  · intro env cc urls bbox p hp
    have hc := progress_cases env cc urls bbox
    simp only [possibleProgressLists, List.mem_cons, List.not_mem_nil,
      or_false] at hc
    rcases hc with hc | hc | hc | hc | hc | hc | hc | hc | hc <;>
      rw [hc] at hp <;>
      simp only [List.mem_cons, List.not_mem_nil, or_false] at hp <;>
      omega
  · intro env cc urls bbox d vt qb h1 h2 h3 h4 h5 h6 h7 h8
    rw [process_success_eq env cc urls bbox d vt qb h1 h2 h3 h4 h5 h6 h7 h8]
    exact ⟨rfl, rfl, rfl⟩

/-- C1 (amended, witness): the amended statement instantiated on a fully
successful run over the spec §8 scenario BBOX. -/
theorem C1_progress_amended_witness :
    (5 : Nat) ≤ 100 ∧
    progressList (process_dem_to_quantized_mesh goodEnv "es" ["s1"] wBBox).1 =
      [5, 15, 30, 50, 65, 75, 85, 95, 100] ∧
    (updateList (process_dem_to_quantized_mesh goodEnv "es" ["s1"] wBBox).1).getLast? =
      some ("SUCCESS", 100) :=
  ⟨C1_progress_amended.1 goodEnv "es" ["s1"] wBBox 5 (by decide),
   (C1_progress_amended.2 goodEnv "es" ["s1"] wBBox [1, 2, 3] ([4, 5], [6])
      [9, 9, 3, 3, 3, 7] rfl rfl rfl rfl rfl rfl rfl rfl).1,
   (C1_progress_amended.2 goodEnv "es" ["s1"] wBBox [1, 2, 3] ([4, 5], [6])
      [9, 9, 3, 3, 3, 7] rfl rfl rfl rfl rfl rfl rfl rfl).2.2⟩

/-- C2: when the encoder toolchain is unavailable (`HAS_ENCODERS` false)
and the mosaic and reprojection stages pass, the attempt does not raise:
it returns the `skipped_encoding` dictionary, the scheduler performs no
retry, and the job terminates `SUCCESS` with the skip recorded in its
result. -/
theorem C2_encoders_unavailable_success (env : Env) (cc : String)
    (urls : List String) (bbox : BBox) (h1 : env.hasEncoders = false)
    (h2 : env.buildVrt.returncode = 0) (h3 : env.warp.returncode = 0) :
    (process_dem_to_quantized_mesh env cc urls bbox).2 =
      Except.ok { status := "skipped_encoding", country := cc,
                  output_path := none } ∧
    scheduleJob (fun _ => env) cc urls bbox =
      { attempts := 1, delays := [],
        final := Except.ok { status := "skipped_encoding", country := cc,
                             output_path := none } } ∧
    jobStatus (scheduleJob (fun _ => env) cc urls bbox) = "SUCCESS" := by
  have hp := process_skip_eq env cc urls bbox h1 h2 h3
  have hs : scheduleJob (fun _ => env) cc urls bbox =
      { attempts := 1, delays := [],
        final := Except.ok { status := "skipped_encoding", country := cc,
                             output_path := none } } := by
    unfold scheduleJob
    simp [scheduleAux, hp]
  exact ⟨by rw [hp], hs, by rw [hs]; rfl⟩

/-- C2 (witness): the encoder-skip success on the spec §8 scenario BBOX. -/
theorem C2_encoders_unavailable_success_witness :
    (process_dem_to_quantized_mesh skipEnvW "es" ["s1"] wBBox).2 =
      Except.ok { status := "skipped_encoding", country := "es",
                  output_path := none } ∧
    scheduleJob (fun _ => skipEnvW) "es" ["s1"] wBBox =
      { attempts := 1, delays := [],
        final := Except.ok { status := "skipped_encoding", country := "es",
                             output_path := none } } ∧
    jobStatus (scheduleJob (fun _ => skipEnvW) "es" ["s1"] wBBox) = "SUCCESS" :=
  C2_encoders_unavailable_success skipEnvW "es" ["s1"] wBBox rfl rfl rfl

/-- C3 (counterexample): the manifest is NOT written only after the tile
artifacts — an attempt whose raster read raises after the dataset opens
has already written `layer.json` (one manifest write in its trace) while
persisting zero tile artifacts, and the attempt aborts with the raised
error. -/
theorem C3_manifest_before_tiles_cex :
    (process_dem_to_quantized_mesh readFailEnvW "es" ["s1"] wBBox).1.countP
      isManifestWrite = 1 ∧
    (process_dem_to_quantized_mesh readFailEnvW "es" ["s1"] wBBox).1.countP
      isTileWrite = 0 ∧
    (process_dem_to_quantized_mesh readFailEnvW "es" ["s1"] wBBox).2 =
      Except.error "read boom" := by
  decide

/-- C3 (amended): the worker writes `layer.json` exactly once per
encoder-enabled attempt, immediately after the reprojected dataset opens
and BEFORE any tile artifact: on a fully successful attempt the manifest
write sits at trace index 4 while the first tile write sits at index 9. -/
theorem C3_manifest_order_amended (env : Env) (cc : String)
    (urls : List String) (bbox : BBox) (d : List Nat)
    (vt : List Nat × List Nat) (qb : List Nat)
    (h1 : env.buildVrt.returncode = 0) (h2 : env.warp.returncode = 0)
    (h3 : env.hasEncoders = true) (h4 : env.openResult = Except.ok ())
    (h5 : env.readResult = Except.ok d) (h6 : env.delatinResult = Except.ok vt)
    (h7 : env.encodeResult = Except.ok qb) (h8 : env.persistResult = Except.ok ()) :
    (process_dem_to_quantized_mesh env cc urls bbox).1.findIdx isManifestWrite = 4 ∧
    (process_dem_to_quantized_mesh env cc urls bbox).1.findIdx isTileWrite = 9 ∧
    (process_dem_to_quantized_mesh env cc urls bbox).1.countP isManifestWrite = 1 ∧
    (process_dem_to_quantized_mesh env cc urls bbox).1.findIdx isManifestWrite <
      (process_dem_to_quantized_mesh env cc urls bbox).1.findIdx isTileWrite := by
  rw [process_success_eq env cc urls bbox d vt qb h1 h2 h3 h4 h5 h6 h7 h8]
  refine ⟨rfl, rfl, rfl, ?_⟩
  have e1 : (successTrace cc bbox qb).findIdx isManifestWrite = 4 := rfl
  have e2 : (successTrace cc bbox qb).findIdx isTileWrite = 9 := rfl
  rw [e1, e2]
  decide

/-- C3 (amended, witness): the manifest-before-tiles order on a concrete
fully successful run. -/
theorem C3_manifest_order_amended_witness :
    (process_dem_to_quantized_mesh goodEnv "es" ["s1"] wBBox).1.findIdx
      isManifestWrite = 4 ∧
    (process_dem_to_quantized_mesh goodEnv "es" ["s1"] wBBox).1.findIdx
      isTileWrite = 9 ∧
    (process_dem_to_quantized_mesh goodEnv "es" ["s1"] wBBox).1.countP
      isManifestWrite = 1 ∧
    (process_dem_to_quantized_mesh goodEnv "es" ["s1"] wBBox).1.findIdx
      isManifestWrite <
      (process_dem_to_quantized_mesh goodEnv "es" ["s1"] wBBox).1.findIdx
        isTileWrite :=
  C3_manifest_order_amended goodEnv "es" ["s1"] wBBox [1, 2, 3] ([4, 5], [6])
    [9, 9, 3, 3, 3, 7] rfl rfl rfl rfl rfl rfl rfl rfl

/-- C4: a job that fails on every attempt runs 4 attempts in total — the
initial one plus exactly `max_retries = 3` retries, each preceded by the
fixed 60-unit delay — and then remains permanently failed, carrying the
error of the last attempt. -/
theorem C4_retry_exhaustion (env : Nat → Env) (cc : String)
    (urls : List String) (bbox : BBox)
    (h : ∀ i, ∃ e, (process_dem_to_quantized_mesh (env i) cc urls bbox).2 =
      Except.error e) :
    (scheduleJob env cc urls bbox).attempts = 4 ∧
    (scheduleJob env cc urls bbox).delays = [60, 60, 60] ∧
    ∃ e, (scheduleJob env cc urls bbox).final = Except.error e ∧
      (process_dem_to_quantized_mesh (env 3) cc urls bbox).2 =
        Except.error e := by
  choose errOf herr using h
  have hs := scheduleAux_all_fail env cc urls bbox errOf herr max_retries 0
  unfold scheduleJob
  rw [hs]
  exact ⟨rfl, rfl, errOf 3, rfl, herr 3⟩

/-- C4 (witness): permanent failure after exactly 3 delayed retries when
`gdalbuildvrt` fails on every attempt. -/
theorem C4_retry_exhaustion_witness :
    (scheduleJob (fun _ => vrtFailEnvW) "es" ["s1"] wBBox).attempts = 4 ∧
    (scheduleJob (fun _ => vrtFailEnvW) "es" ["s1"] wBBox).delays =
      [60, 60, 60] ∧
    ∃ e, (scheduleJob (fun _ => vrtFailEnvW) "es" ["s1"] wBBox).final =
      Except.error e ∧
      (process_dem_to_quantized_mesh vrtFailEnvW "es" ["s1"] wBBox).2 =
        Except.error e :=
  C4_retry_exhaustion (fun _ => vrtFailEnvW) "es" ["s1"] wBBox
    (fun _ => ⟨_, rfl⟩)

/-- C5: a status-channel observer of a job that eventually reaches a
terminal backend state receives exactly one terminal event: the emitted
payload list is a block of non-terminal events followed by a single final
terminal event, after which the loop stops (the channel closes); and every
job outcome of the scheduler — `SUCCESS` or `FAILURE`, so in particular a
job that ends failed — is terminal for the loop. -/
theorem C5_single_terminal_event :
    (∀ (job_id : String) (stateAt : Nat → String) (infoAt : Nat → TaskInfo)
        (fuel t0 : Nat),
        (∃ n, n < fuel ∧ isTerminalState (stateAt (t0 + n)) = true) →
        ∃ pre fin,
          websocket_job_status job_id stateAt infoAt fuel t0 = pre ++ [fin] ∧
          isTerminalState fin.status = true ∧
          ∀ q ∈ pre, isTerminalState q.status = false) ∧
    (∀ o : JobOutcome, isTerminalState (jobStatus o) = true) := by
  constructor
  · intro job_id stateAt infoAt fuel
    induction fuel with
    | zero =>
      rintro t0 ⟨n, hn, _⟩
      exact absurd hn (Nat.not_lt_zero n)
    | succ f ih =>
      rintro t0 ⟨n, hn, hterm⟩
      by_cases h0 : isTerminalState (stateAt t0) = true
      · refine ⟨[], buildPayload job_id (stateAt t0) (infoAt t0), ?_, ?_, ?_⟩
        · simp [websocket_job_status, h0]
        · rw [buildPayload_status]; exact h0
        · intro q hq; exact absurd hq (List.not_mem_nil q)
      · have hn0 : n ≠ 0 := by
          rintro rfl
          rw [Nat.add_zero] at hterm
          exact h0 hterm
        obtain ⟨m, rfl⟩ : ∃ m, n = m + 1 := ⟨n - 1, by omega⟩
        have hterm' : isTerminalState (stateAt (t0 + 1 + m)) = true := by
          have hidx : t0 + 1 + m = t0 + (m + 1) := by omega
          rw [hidx]; exact hterm
        obtain ⟨pre, fin, heq, hfin, hpre⟩ := ih (t0 + 1) ⟨m, by omega, hterm'⟩
        refine ⟨buildPayload job_id (stateAt t0) (infoAt t0) :: pre, fin, ?_,
          hfin, ?_⟩
        · simp [websocket_job_status, h0, heq]
        · intro q hq
          rcases List.mem_cons.mp hq with rfl | hq'
          · rw [buildPayload_status]
            simpa using h0
          · exact hpre q hq'
  · intro o
    cases hf : o.final <;> simp [jobStatus, hf, isTerminalState, terminalStates]

/-- C5 (witness): an observer of a job that fails permanently after one
in-progress poll receives one non-terminal event and then exactly one
terminal event. -/
theorem C5_single_terminal_event_witness :
    ∃ pre fin,
      websocket_job_status "job-1" c5States c5Infos 5 0 = pre ++ [fin] ∧
      isTerminalState fin.status = true ∧
      ∀ q ∈ pre, isTerminalState q.status = false :=
  C5_single_terminal_event.1 "job-1" c5States c5Infos 5 0
    ⟨1, by decide, by decide⟩

/-- C6: the tile set the worker writes is NOT computed from the BBOX
corners over the configured zoom levels — the source hardcodes the single
tile (12, 2048, 2048) for every request ("Simple mocking of a looping
mechanism for Z/X/Y").  On the spec §8 scenario BBOX the geodetic corner
tile at zoom 12 is column 4073, row 3003, which the code never produces,
and zoom levels 13 and 14 of `ZOOM_LEVELS` are never tiled; two disjoint
BBOXes yield the same output. -/
theorem C6_hardcoded_tile_eval :
    codeTiles wBBox ZOOM_LEVELS = [{ z := 12, x := 2048, y := 2048 }] ∧
    codeTiles altBBox ZOOM_LEVELS = codeTiles wBBox ZOOM_LEVELS ∧
    (codeTiles wBBox ZOOM_LEVELS).all (fun a => a.z == 12) = true ∧
    ZOOM_LEVELS.contains 13 = true ∧
    ZOOM_LEVELS.contains 14 = true ∧
    lonToTileX wBBox.minX 12 = 4073 ∧
    latToTileY wBBox.minY 12 = 3003 ∧
    (tilesForZoom wBBox 12).contains { z := 12, x := 4073, y := 3003 } = true ∧
    (codeTiles wBBox ZOOM_LEVELS).contains { z := 12, x := 4073, y := 3003 } =
      false := by
  decide

/-- C7 (counterexample): a failure of the mosaic stage (the stage that
fails when no source intersects the BBOX) IS retried — three delayed
retries occur, contradicting "this zero-intersection failure is not
retried" — and the stored error is the generic GDAL `RuntimeError` text,
not a `DataError`-class message. -/
theorem C7_zero_intersection_retried_cex :
    (scheduleJob (fun _ => vrtFailEnvW) "es" ["s1"] wBBox).delays =
      [60, 60, 60] ∧
    (scheduleJob (fun _ => vrtFailEnvW) "es" ["s1"] wBBox).attempts = 4 ∧
    (scheduleJob (fun _ => vrtFailEnvW) "es" ["s1"] wBBox).final =
      Except.error ("GDAL command failed: " ++
        String.intercalate " " (vrt_cmd "es" ["s1"] wBBox)) := by
  decide

/-- C7 (amended): a job whose mosaic stage fails on every attempt (the
zero-intersection case) ends permanently failed — never `SUCCESS` — with
the generic `GDAL command failed` message of the worker's uniform
handler, but only after being retried like any other failure: 3 delayed
retries. -/
theorem C7_zero_intersection_amended (env : Nat → Env) (cc : String)
    (urls : List String) (bbox : BBox)
    (h : ∀ i, (env i).buildVrt.returncode ≠ 0) :
    (scheduleJob env cc urls bbox).final =
      Except.error ("GDAL command failed: " ++
        String.intercalate " " (vrt_cmd cc urls bbox)) ∧
    jobStatus (scheduleJob env cc urls bbox) = "FAILURE" ∧
    jobStatus (scheduleJob env cc urls bbox) ≠ "SUCCESS" ∧
    (scheduleJob env cc urls bbox).delays = [60, 60, 60] := by
  have herr : ∀ i, (process_dem_to_quantized_mesh (env i) cc urls bbox).2 =
      Except.error ("GDAL command failed: " ++
        String.intercalate " " (vrt_cmd cc urls bbox)) :=
    fun i => process_buildVrt_fail (env i) cc urls bbox (h i)
  have hs := scheduleAux_all_fail env cc urls bbox _ herr max_retries 0
  unfold scheduleJob
  rw [hs]
  exact ⟨rfl, rfl,
    fun hEq => absurd (show ("FAILURE" : String) = "SUCCESS" from hEq) (by decide),
    rfl⟩

/-- C7 (amended, witness): the amended statement on a concrete job whose
`gdalbuildvrt` fails on every attempt. -/
theorem C7_zero_intersection_amended_witness :
    (scheduleJob (fun _ => vrtFailEnvW) "fr" ["wcs"] altBBox).final =
      Except.error ("GDAL command failed: " ++
        String.intercalate " " (vrt_cmd "fr" ["wcs"] altBBox)) ∧
    jobStatus (scheduleJob (fun _ => vrtFailEnvW) "fr" ["wcs"] altBBox) =
      "FAILURE" ∧
    jobStatus (scheduleJob (fun _ => vrtFailEnvW) "fr" ["wcs"] altBBox) ≠
      "SUCCESS" ∧
    (scheduleJob (fun _ => vrtFailEnvW) "fr" ["wcs"] altBBox).delays =
      [60, 60, 60] :=
  C7_zero_intersection_amended (fun _ => vrtFailEnvW) "fr" ["wcs"] altBBox
    (fun _ => (by decide : (1 : Int) ≠ 0))

/-- C8: on every fully successful attempt, the persisted `.terrain.gz`
artifact is the compression of the encoder's output bytes, and
decompressing it reproduces those bytes bit-for-bit. -/
theorem C8_gzip_roundtrip_persist (env : Env) (cc : String)
    (urls : List String) (bbox : BBox) (d : List Nat)
    (vt : List Nat × List Nat) (qb : List Nat)
    (h1 : env.buildVrt.returncode = 0) (h2 : env.warp.returncode = 0)
    (h3 : env.hasEncoders = true) (h4 : env.openResult = Except.ok ())
    (h5 : env.readResult = Except.ok d) (h6 : env.delatinResult = Except.ok vt)
    (h7 : env.encodeResult = Except.ok qb) (h8 : env.persistResult = Except.ok ()) :
    Event.write (gz_file cc) (gzipBytes qb) ∈
      (process_dem_to_quantized_mesh env cc urls bbox).1 ∧
    gunzipBytes (gzipBytes qb) = qb := by
  rw [process_success_eq env cc urls bbox d vt qb h1 h2 h3 h4 h5 h6 h7 h8]
  constructor
  · simp [successTrace]
  · exact gunzipBytes_gzipBytes qb

/-- C8 (witness): the persisted artifact of a concrete successful run
decompresses to the encoder's exact bytes. -/
theorem C8_gzip_roundtrip_persist_witness :
    Event.write (gz_file "es") (gzipBytes [9, 9, 3, 3, 3, 7]) ∈
      (process_dem_to_quantized_mesh goodEnv "es" ["s1"] wBBox).1 ∧
    gunzipBytes (gzipBytes [9, 9, 3, 3, 3, 7]) = [9, 9, 3, 3, 3, 7] :=
  C8_gzip_roundtrip_persist goodEnv "es" ["s1"] wBBox [1, 2, 3] ([4, 5], [6])
    [9, 9, 3, 3, 3, 7] rfl rfl rfl rfl rfl rfl rfl rfl

/-- C9: the submit endpoint performs no pipeline work itself — if the
enqueue succeeds it immediately returns the broker's task id with status
"queued"; if the enqueue raises it rejects with the 503 queue-unavailable
error and produces no job response. -/
theorem C9_submit_contract (request : BboxIngestRequest) (taskId err : String) :
    start_ingestion request (EnqueueOutcome.enqueued taskId) =
      ([], Except.ok
        { job_id := taskId, status := "queued",
          message := "Ingestion job queued. Connect to WS /api/elevation/ws/status/{job_id} for live updates." }) ∧
    start_ingestion request (EnqueueOutcome.raised err) =
      ([], Except.error
        { status_code := 503,
          detail := "Processing queue unavailable. Please try again later." }) :=
  ⟨rfl, rfl⟩

/-- C10: every attempt that raises — whatever stage the exception comes
from — ends its event trace with a `FAILED` ledger update whose progress
is 0 and whose message is `Error crítico: ` followed by the exception
text, written before the error is handed to the retry mechanism. -/
theorem C10_failure_update (env : Env) (cc : String) (urls : List String)
    (bbox : BBox) (e : String)
    (h : (process_dem_to_quantized_mesh env cc urls bbox).2 = Except.error e) :
    (process_dem_to_quantized_mesh env cc urls bbox).1.getLast? =
      some (Event.update "FAILED" 0 ("Error crítico: " ++ e)) := by
  obtain ⟨bv, wp, henc, ho, hr, hd, he2, hp⟩ := env
  by_cases h1 : bv.returncode = 0
  · by_cases h2 : wp.returncode = 0
    · cases henc
      · simp_all [process_dem_to_quantized_mesh, run_gdal]
      · rcases ho with oe | ou
        · simp_all [process_dem_to_quantized_mesh, run_gdal, failEvents]
        · rcases hr with re | rd
          · simp_all [process_dem_to_quantized_mesh, run_gdal, failEvents]
          · rcases hd with de | dv
            · simp_all [process_dem_to_quantized_mesh, run_gdal, failEvents]
            · rcases he2 with ee | eb
              · simp_all [process_dem_to_quantized_mesh, run_gdal, failEvents]
              · rcases hp with pe | pu
                · simp_all [process_dem_to_quantized_mesh, run_gdal, failEvents]
                · simp_all [process_dem_to_quantized_mesh, run_gdal]
    · simp_all [process_dem_to_quantized_mesh, run_gdal, failEvents]
  · simp_all [process_dem_to_quantized_mesh, run_gdal, failEvents]

/-- C10 (witness): the FAILED/0 update with the exception text is the last
event of a concrete attempt whose decimation stage raises. -/
theorem C10_failure_update_witness :
    (process_dem_to_quantized_mesh delatinFailEnvW "es" ["s1"] wBBox).1.getLast? =
      some (Event.update "FAILED" 0 ("Error crítico: " ++ "delatin boom")) :=
  C10_failure_update delatinFailEnvW "es" ["s1"] wBBox "delatin boom" rfl

end ElevationPipeline
